import Mathlib

/-!
Verification development for the authentication/exchange flow engine of the
aws-cli-oidc command line tool (Go sources under `lib/`).

The Go code is shallowly embedded as pure Lean functions over an explicit
environment `Env` of collaborator oracles (configuration, OS secret store,
identity-check probe, entropy source, browser, redirect callback, token
endpoint, credential-exchange service).  Side effects are recorded as an
explicit event trace, and a computation that can block forever on the
hand-off channel is modelled with `Option` (`none` = never returns).
-/

namespace AwsCliOidc

/-! ## Configuration keys (src/lib/config.go) -/

def OIDC_PROVIDER_METADATA_URL : String := "oidc_provider_metadata_url"

def CLIENT_ID : String := "client_id"

def CLIENT_SECRET : String := "client_secret"

def MAX_SESSION_DURATION_SECONDS : String := "max_session_duration_seconds"

def DEFAULT_IAM_ROLE_ARN : String := "default_iam_role_arn"

/-! ## Data model -/

/-- Modelled from the spec: the Temporary Credential record
(`AWSCredentials` in Go; its struct definition lives outside the provided
sources).  `auth.go` reads and writes the fields `AWSAccessKey`,
`AWSSecretKey`, `AWSSessionToken` and `Version`. -/
structure AWSCredentials where
  AWSAccessKey : String
  AWSSecretKey : String
  AWSSessionToken : String
  Version : Int
deriving DecidableEq, Repr

/-- Modelled from the spec: the Token Response record (`TokenResponse` in
Go; struct definition outside the provided sources).  `auth.go` consumes
only `IDToken`. -/
structure TokenResponse where
  AccessToken : String
  IDToken : String
  TokenType : String
  ExpiresIn : Int
deriving DecidableEq, Repr

/-- The Go zero value of `TokenResponse`: what `codeToToken` returns when
the 200-status body fails to decode (the decode error is discarded). -/
def zeroTokenResponse : TokenResponse :=
  { AccessToken := "", IDToken := "", TokenType := "", ExpiresIn := 0 }

/-- Modelled from the spec: the token endpoint's JSON error body with its
optional string fields `error` and `error_description` (decoded in Go into
a `map[string]interface` value; `none` models an absent key). -/
structure ErrBody where
  error : Option String
  error_description : Option String
deriving DecidableEq, Repr

/-- How Go's `fmt` verb `%s` renders a JSON field value pulled out of the
decoded map: the string itself when present, the nil-interface rendering
when the key is absent. -/
def errJsonVal : Option String → String
  | some s => s
  | none => "%!s(<nil>)"

/-- An HTTP response from the token endpoint as observed through the
`res` handle in `codeToToken`: its status, its media type, and the results
of decoding the body as an error object or as a token response. -/
structure HTTPResponse where
  status : Nat
  mediaType : String
  errJson : Option ErrBody
  tokenJson : Option TokenResponse
deriving DecidableEq, Repr

/-! ## Query strings and form values

Go's `url.Values.Get` returns the first value associated with a key and
the empty string when the key is absent; `url.Values.Set` replaces all
values of a key with a single one. -/

def queryGet : List (String × String) → String → String
  | [], _ => ""
  | p :: rest, k => if p.1 = k then p.2 else queryGet rest k

def formSet (f : List (String × String)) (k v : String) : List (String × String) :=
  f.filter (fun p => p.1 ≠ k) ++ [(k, v)]

theorem queryGet_formSet_self (f : List (String × String)) (k v : String) :
    queryGet (formSet f k v) k = v := by
  induction f with
  | nil => simp [formSet, queryGet]
  | cons p rest ih =>
    by_cases hp : p.1 = k
    · simpa [formSet, hp] using ih
    · simpa [formSet, queryGet, hp] using ih

theorem queryGet_formSet_other (f : List (String × String)) (k k' v : String)
    (h : k ≠ k') : queryGet (formSet f k' v) k = queryGet f k := by
  induction f with
  | nil =>
    simp only [formSet, List.filter_nil, List.nil_append, queryGet]
    exact if_neg fun he => absurd he.symm h
  | cons p rest ih =>
    by_cases hp : p.1 = k'
    · have hdrop : formSet (p :: rest) k' v = formSet rest k' v := by
        simp [formSet, List.filter_cons, hp]
      have hpk : p.1 ≠ k := by rw [hp]; exact Ne.symm h
      rw [hdrop, ih]
      simp [queryGet, hpk]
    · have hkeep : formSet (p :: rest) k' v = p :: formSet rest k' v := by
        simp [formSet, List.filter_cons, hp]
      rw [hkeep]
      by_cases hk : p.1 = k
      · simp [queryGet, hk]
      · simp [queryGet, hk, ih]

/-! ## Base-10 signed 64-bit parsing (Go `strconv.ParseInt(s, 10, 64)`)

An optional sign followed by at least one ASCII digit; the value must fit
in a signed 64-bit integer.  Go returns a non-nil error on empty input,
stray characters and range overflow; all the error cases are collapsed to
`none` (the caller in `Authenticate` only branches on `err != nil`). -/

def parseInt64 (s : String) : Option Int :=
  match s.data with
  | [] => none
  | c :: rest =>
    let signDigits : Bool × List Char :=
      if c = '-' then (true, rest)
      else if c = '+' then (false, rest)
      else (false, c :: rest)
    let neg := signDigits.1
    let digits := signDigits.2
    if digits = [] then none
    else if digits.all (fun d => d.isDigit) then
      let mag : Nat := digits.foldl (fun a d => a * 10 + (d.toNat - 48)) 0
      let v : Int := if neg then -(mag : Int) else (mag : Int)
      if -(2 ^ 63) ≤ v ∧ v ≤ 2 ^ 63 - 1 then some v else none
    else none

/-! ## Base64url (no padding), as used by the PKCE S256 transform -/

def base64urlTable : List Char :=
  "ABCDEFGHIJKLMNOPQRSTUVWXYZabcdefghijklmnopqrstuvwxyz0123456789-_".data

def base64Char (n : Nat) : Char := base64urlTable.getD n 'A'

def base64urlEncode : List Nat → String
  | [] => ""
  | [b1] =>
    let x := b1 % 256
    String.mk [base64Char (x / 4), base64Char (x % 4 * 16)]
  | [b1, b2] =>
    let x := (b1 % 256) * 256 + b2 % 256
    String.mk [base64Char (x / 1024), base64Char (x / 16 % 64), base64Char (x % 16 * 4)]
  | b1 :: b2 :: b3 :: rest =>
    let x := (b1 % 256) * 65536 + (b2 % 256) * 256 + b3 % 256
    String.mk [base64Char (x / 262144), base64Char (x / 4096 % 64),
      base64Char (x / 64 % 64), base64Char (x % 64)] ++ base64urlEncode rest

/-! ## Environment of collaborator oracles and the event trace -/

/-- One observable side effect of a run.  `secretGet`/`secretPut` are the
OS secret-store reads and writes, `identityCheck` is the STS
`GetCallerIdentity` probe in `isValid`, `listenBind` is the
`net.Listen("tcp", "127.0.0.1:8118")` call, `pkceGen` is the PKCE pair
creation, `browserLaunch` is `browser.OpenURL`, `tokenExchange` is the
POST to the token endpoint, and `stsCall` is `GetCredentialsWithOIDC`
applied to a role and a session duration. -/
inductive Event where
  | secretGet (role : String)
  | identityCheck
  | listenBind
  | pkceGen
  | browserLaunch
  | tokenExchange
  | stsCall (role : String) (durationSeconds : Int)
  | secretPut (role : String)
deriving DecidableEq, Repr

/-- The collaborators of one `Authenticate` run, fixed up front:

* `config` — `client.config.GetString` (the viper configuration);
* `secretGet` — `AWSCredential(role)`, returning a possibly absent
  credential and a possibly non-nil error;
* `identityCheckOk` — whether STS `GetCallerIdentity` accepts a
  credential (the probe in `isValid`);
* `listenErr` — the error of `net.Listen` on 127.0.0.1:8118, if any;
* `entropyErr` — the error of PKCE verifier creation, if any;
* `randChars` — the entropy stream the PKCE library draws verifier
  characters from;
* `sha256` — the SHA-256 digest as a byte list (abstract);
* `browserOk` — whether `browser.OpenURL` returns a nil error;
* `callback` — the parsed query of the redirect request that reaches the
  listener, or `none` when no callback ever arrives;
* `clientForm` — `client.ClientForm()`, the base form carrying client
  authentication;
* `tokenPost` — the token endpoint: maps a submitted form to a transport
  error or an `HTTPResponse`;
* `stsExchange` — `GetCredentialsWithOIDC(client, idToken, role,
  durationSeconds)`. -/
structure Env where
  config : String → String
  secretGet : String → Option AWSCredentials × Option String
  identityCheckOk : AWSCredentials → Bool
  listenErr : Option String
  entropyErr : Option String
  randChars : Nat → Char
  sha256 : String → List Nat
  browserOk : Bool
  callback : Option (List (String × String))
  clientForm : List (String × String)
  tokenPost : List (String × String) → Except String HTTPResponse
  stsExchange : String → String → Int → Except String AWSCredentials

/-! ## PKCE generation

Modelled from the spec: `pkce.CreateCodeVerifierWithLength(pkce.MaxLength)`
and `CodeChallengeS256` belong to an external library whose sources are
not part of this repository.  Per the spec the generator "produces a
random verifier of the maximum allowed length" (the allowed bound being
43–128 characters) "and derives the S256 challenge deterministically"
(base64url of the SHA-256 digest of the verifier). -/

def pkceMinLength : Nat := 43

def pkceMaxLength : Nat := 128

/-- Modelled from the spec: the verifier drawn by
`pkce.CreateCodeVerifierWithLength(pkce.MaxLength)` from the entropy
stream — a random string of exactly `pkceMaxLength` characters. -/
def createCodeVerifier (env : Env) : String :=
  String.mk ((List.range pkceMaxLength).map env.randChars)

/-- Modelled from the spec: `v.CodeChallengeS256()`, the S256 transform —
base64url (no padding) of the SHA-256 digest of the verifier. -/
def codeChallengeS256 (env : Env) (v : String) : String :=
  base64urlEncode (env.sha256 v)

/-! ## The redirect handler and `launch` (src/lib/auth.go, lines 149-201) -/

/-- The redirect URI advertised to the provider (`redirect` in `doLogin`). -/
def redirectUri : String := "http://localhost:8118"

/-- What the HTTP handler registered in `launch` produces for one request:
the `code` query parameter it delivers on the hand-off channel, the result
message, and the rendered HTML page. -/
structure RedirectResponse where
  delivered : String
  message : String
  page : String
deriving DecidableEq, Repr

/-- The static result page written by the handler. -/
def loginPage (message : String) : String :=
  "<!DOCTYPE html>\n<body>\n" ++ message ++ "\n</body>\n</html>\n"

/-- The handler body: read `code` from the request query, render the
result page, and deliver the code on the channel. -/
def handleRedirect (q : List (String × String)) : RedirectResponse :=
  let code := queryGet q "code"
  let message := "Login " ++ (if code ≠ "" then "successful" else "failed")
  { delivered := code, message := message, page := loginPage message }

/-- `launch`: start serving on the already-bound listener, open the
browser, and — only if the browser opened without error — block receiving
on the hand-off channel.  `none` models the blocking receive never being
completed (no callback request ever reaches the handler, so nothing is
ever sent on the channel); `some code` models `launch` returning `code`.
When the browser fails to open, the receive is skipped and the zero-value
`code` (the empty string) is returned at once. -/
def launch (env : Env) : Option String :=
  if env.browserOk then
    match env.callback with
    | some q => some (handleRedirect q).delivered
    | none => none
  else some ""

/-! ## `codeToToken` (src/lib/auth.go, lines 203-233) -/

/-- The form submitted to the token endpoint: the client form with
`grant_type`, `code`, `code_verifier` and `redirect_uri` set. -/
def tokenFormOf (env : Env) (verifier code redirect : String) :
    List (String × String) :=
  formSet (formSet (formSet (formSet env.clientForm
    "grant_type" "authorization_code") "code" code)
    "code_verifier" verifier) "redirect_uri" redirect

/-- `codeToToken`: build the form, POST it, and interpret the response.
Returns the outcome together with the form that was submitted.  On a
non-200 status with a declared media type and a JSON-decodable body, the
error carries the body's `error` and `error_description` values; on any
other non-200 response the generic message is returned.  On status 200
the body is decoded into a `TokenResponse` and the decode error is
discarded, so a malformed body yields the zero value. -/
def codeToToken (env : Env) (verifier code redirect : String) :
    Except String TokenResponse × List (String × String) :=
  let form := tokenFormOf env verifier code redirect
  match env.tokenPost form with
  | .error e => (.error ("Failed to turn code into token: " ++ e), form)
  | .ok r =>
    if r.status ≠ 200 then
      if r.mediaType ≠ "" then
        match r.errJson with
        | some j =>
          (.error ("Failed to turn code into token, error: " ++ errJsonVal j.error
            ++ " error_description: " ++ errJsonVal j.error_description), form)
        | none => (.error "Failed to turn code into token", form)
      else (.error "Failed to turn code into token", form)
    else (.ok (r.tokenJson.getD zeroTokenResponse), form)

/-! ## `doLogin` (src/lib/auth.go, lines 116-147) -/

/-- The query parameters of the authorization request built in `doLogin`,
in the order the `QueryParam` chain adds them. -/
def authRequestParams (env : Env) (challenge : String) : List (String × String) :=
  [("response_type", "code"),
   ("client_id", env.config CLIENT_ID),
   ("redirect_uri", redirectUri),
   ("code_challenge", challenge),
   ("code_challenge_method", "S256"),
   ("scope", "openid")]

/-- One `doLogin` run: its outcome (`none` when it blocks forever inside
`launch`), the events it performed, the authorization request it built
(if it got that far) and the form submitted to the token endpoint (if the
exchange was reached). -/
structure DoLoginRun where
  outcome : Option (Except String TokenResponse)
  events : List Event
  authReq : Option (List (String × String))
  tokenForm : Option (List (String × String))

/-- `doLogin`: bind the listener, generate the PKCE pair, build the
authorization request, launch the browser, and exchange a non-empty code
for a token. -/
def doLogin (env : Env) : DoLoginRun :=
  match env.listenErr with
  | some e =>
    { outcome := some (.error
        ("Cannot start local http server to handle login redirect: " ++ e)),
      events := [.listenBind], authReq := none, tokenForm := none }
  | none =>
    match env.entropyErr with
    | some e =>
      { outcome := some (.error ("Cannot generate OAuth2 PKCE code_challenge: " ++ e)),
        events := [.listenBind, .pkceGen], authReq := none, tokenForm := none }
    | none =>
      let verifier := createCodeVerifier env
      let challenge := codeChallengeS256 env verifier
      let a := authRequestParams env challenge
      match launch env with
      | none =>
        { outcome := none, events := [.listenBind, .pkceGen, .browserLaunch],
          authReq := some a, tokenForm := none }
      | some code =>
        if code ≠ "" then
          let r := codeToToken env verifier code redirectUri
          { outcome := some r.1,
            events := [.listenBind, .pkceGen, .browserLaunch, .tokenExchange],
            authReq := some a, tokenForm := some r.2 }
        else
          { outcome := some (.error "Login failed, can't retrieve authorization code"),
            events := [.listenBind, .pkceGen, .browserLaunch],
            authReq := some a, tokenForm := none }

/-! ## `Authenticate` (src/lib/auth.go, lines 21-84) -/

/-- What `Authenticate` finally does: hang forever (inside `doLogin`),
exit the process with an error, or emit a credential. -/
inductive AuthOutput where
  | json (c : AWSCredentials)
  | envExport (accessKey secretKey sessionToken : String)
deriving DecidableEq, Repr

/-- The terminal state of one `Authenticate` run. -/
inductive AuthOutcome where
  | hangs
  | exited (msg : String)
  | emitted (o : AuthOutput)
deriving DecidableEq, Repr

/-- One `Authenticate` run: terminal state plus event trace. -/
structure AuthRun where
  outcome : AuthOutcome
  events : List Event

/-- The output step: in JSON mode set `Version` to 1 and marshal the
credential; otherwise export the three environment variables. -/
def emitCreds (c : AWSCredentials) (asJson : Bool) : AuthOutcome :=
  if asJson then .emitted (.json { c with Version := 1 })
  else .emitted (.envExport c.AWSAccessKey c.AWSSecretKey c.AWSSessionToken)

/-- Role resolution at the top of `Authenticate`: the explicit argument,
else the configured default. -/
def resolveRole (env : Env) (roleArn : String) : String :=
  if roleArn = "" then env.config DEFAULT_IAM_ROLE_ARN else roleArn

/-- Session-duration resolution (lines 47-53): a non-positive argument is
replaced by the parse of the configured string, with 3600 as the fallback
when parsing fails.  No clamping to any range happens here. -/
def resolveMaxDuration (arg : Int) (cfg : String) : Int :=
  if arg ≤ 0 then
    match parseInt64 cfg with
    | some v => v
    | none => 3600
  else arg

/-- The fresh-login arm of `Authenticate`: run `doLogin`, resolve the
session duration, call the credential exchange, optionally persist, then
emit.  `ev0` is the trace accumulated by the cache probe. -/
def loginAndExchange (env : Env) (role : String) (maxDur : Int)
    (useSecret asJson : Bool) (ev0 : List Event) : AuthRun :=
  let run := doLogin env
  match run.outcome with
  | none => { outcome := .hangs, events := ev0 ++ run.events }
  | some (.error e) => { outcome := .exited e, events := ev0 ++ run.events }
  | some (.ok tok) =>
    let dur := resolveMaxDuration maxDur (env.config MAX_SESSION_DURATION_SECONDS)
    match env.stsExchange role tok.IDToken dur with
    | .error e =>
      { outcome := .exited e, events := ev0 ++ run.events ++ [.stsCall role dur] }
    | .ok creds =>
      { outcome := emitCreds creds asJson,
        events := ev0 ++ run.events ++ [.stsCall role dur]
          ++ (if useSecret then [.secretPut role] else []) }

/-- `Authenticate`: resolve the role; when credential reuse is requested,
probe the secret store and validate the stored credential (`isValid`
returns false for an absent credential without touching the network, and
probes STS otherwise); short-circuit on a valid error-free cached
credential, else run the full login-and-exchange flow. -/
def Authenticate (env : Env) (roleArn : String)
    (maxSessionDurationSeconds : Int) (useSecret asJson : Bool) : AuthRun :=
  let role := resolveRole env roleArn
  if useSecret then
    match env.secretGet role with
    | (some c, none) =>
      if env.identityCheckOk c then
        { outcome := emitCreds c asJson, events := [.secretGet role, .identityCheck] }
      else
        loginAndExchange env role maxSessionDurationSeconds useSecret asJson
          [.secretGet role, .identityCheck]
    | (some _, some _) =>
      loginAndExchange env role maxSessionDurationSeconds useSecret asJson
        [.secretGet role, .identityCheck]
    | (none, _) =>
      loginAndExchange env role maxSessionDurationSeconds useSecret asJson
        [.secretGet role]
  else
    loginAndExchange env role maxSessionDurationSeconds useSecret asJson []

/-! ## Concrete environments for witnesses and counterexamples -/

/-- A concrete stored credential. -/
def sampleCred : AWSCredentials :=
  { AWSAccessKey := "AKIA", AWSSecretKey := "SECRET",
    AWSSessionToken := "TOKEN", Version := 0 }

/-- A concrete token response. -/
def sampleTok : TokenResponse :=
  { AccessToken := "at", IDToken := "idtok", TokenType := "Bearer", ExpiresIn := 3600 }

/-- A neutral environment: empty configuration, empty secret store,
rejecting identity check, working listener and entropy, working browser,
no callback, unreachable endpoints. -/
def baseEnv : Env :=
  { config := fun _ => "",
    secretGet := fun _ => (none, none),
    identityCheckOk := fun _ => false,
    listenErr := none,
    entropyErr := none,
    randChars := fun _ => 'a',
    sha256 := fun _ => [1, 2, 3],
    browserOk := true,
    callback := none,
    clientForm := [("client_id", "my-client")],
    tokenPost := fun _ => .error "connection refused",
    stsExchange := fun _ _ _ => .error "sts unavailable" }

/-- Environment with a cached credential the identity check accepts. -/
def envCached : Env :=
  { baseEnv with
    secretGet := fun _ => (some sampleCred, none),
    identityCheckOk := fun _ => true }

/-- Environment in which the browser opens but no redirect callback ever
arrives. -/
def envHang : Env := { baseEnv with browserOk := true, callback := none }

/-- A structured 400 response from the token endpoint. -/
def resp400 : HTTPResponse :=
  { status := 400, mediaType := "application/json",
    errJson := some { error := some "invalid_grant",
                      error_description := some "code expired" },
    tokenJson := none }

/-- Environment whose token endpoint always answers with `resp400`. -/
def envErr400 : Env := { baseEnv with tokenPost := fun _ => .ok resp400 }

/-- A successful 200 response carrying `sampleTok`. -/
def resp200 : HTTPResponse :=
  { status := 200, mediaType := "application/json",
    errJson := none, tokenJson := some sampleTok }

/-- Environment in which the whole flow succeeds: a callback arrives with
a code, the token endpoint answers 200, and the credential exchange
yields `sampleCred`. -/
def envFlow : Env :=
  { baseEnv with
    callback := some [("code", "OK")],
    tokenPost := fun _ => .ok resp200,
    stsExchange := fun _ _ _ => .ok sampleCred }

/-- A 200 response whose body fails to decode as a token response. -/
def respMalformed : HTTPResponse :=
  { status := 200, mediaType := "", errJson := none, tokenJson := none }

/-- Environment whose token endpoint answers 200 with a malformed body. -/
def envMalformed : Env :=
  { baseEnv with
    callback := some [("code", "OK")],
    tokenPost := fun _ => .ok respMalformed }

/-- Environment in which the browser fails to open. -/
def envNoBrowser : Env := { baseEnv with browserOk := false }

/-- Environment with a callback carrying `code=ABC123`. -/
def envCallback : Env := { baseEnv with callback := some [("code", "ABC123")] }

/-! ## C1 — cached-credential short circuit -/

/-- C1: for every `Authenticate` call with `useSecret = true` where the
secret store yields a cached credential for the resolved role without
error and the identity check accepts it, no listener bind, no PKCE
generation, no browser launch and no token exchange happens (`doLogin` is
never invoked), and the cached credential is emitted, modified only by
setting `Version := 1` in JSON output mode. -/
theorem authenticate_cached_shortcircuit (env : Env) (roleArn : String)
    (maxDur : Int) (asJson : Bool) (c : AWSCredentials)
    (hget : env.secretGet (resolveRole env roleArn) = (some c, none))
    (hvalid : env.identityCheckOk c = true) :
    Event.browserLaunch ∉ (Authenticate env roleArn maxDur true asJson).events ∧
    Event.tokenExchange ∉ (Authenticate env roleArn maxDur true asJson).events ∧
    Event.listenBind ∉ (Authenticate env roleArn maxDur true asJson).events ∧
    Event.pkceGen ∉ (Authenticate env roleArn maxDur true asJson).events ∧
    (Authenticate env roleArn maxDur true asJson).outcome =
      (if asJson then AuthOutcome.emitted (.json { c with Version := 1 })
       else AuthOutcome.emitted
         (.envExport c.AWSAccessKey c.AWSSecretKey c.AWSSessionToken)) := by
  have h : Authenticate env roleArn maxDur true asJson =
      { outcome := emitCreds c asJson,
        events := [.secretGet (resolveRole env roleArn), .identityCheck] } := by
    unfold Authenticate
    simp only [if_true, hget, hvalid]
  rw [h]
  refine ⟨?_, ?_, ?_, ?_, ?_⟩ <;> simp [emitCreds]

/-- C1 witness: the short circuit at a concrete environment. -/
theorem authenticate_cached_shortcircuit_witness :
    Event.browserLaunch ∉ (Authenticate envCached "arn:aws:iam::1:role/r" 0 true true).events ∧
    Event.tokenExchange ∉ (Authenticate envCached "arn:aws:iam::1:role/r" 0 true true).events ∧
    Event.listenBind ∉ (Authenticate envCached "arn:aws:iam::1:role/r" 0 true true).events ∧
    Event.pkceGen ∉ (Authenticate envCached "arn:aws:iam::1:role/r" 0 true true).events ∧
    (Authenticate envCached "arn:aws:iam::1:role/r" 0 true true).outcome =
      (if true then AuthOutcome.emitted (.json { sampleCred with Version := 1 })
       else AuthOutcome.emitted
         (.envExport sampleCred.AWSAccessKey sampleCred.AWSSecretKey
           sampleCred.AWSSessionToken)) :=
  authenticate_cached_shortcircuit envCached "arn:aws:iam::1:role/r" 0 true
    sampleCred rfl rfl

/-! ## C2 — no overall timeout on the hand-off channel -/

/-- C2 counterexample: with the browser opened successfully and no
redirect callback ever reaching the listener, `launch` does not return at
all (it blocks forever on the receive from the hand-off channel), so it
does not return within any bounded timeout; `doLogin` inherits the hang. -/
theorem launch_counterexample_hangs :
    envHang.browserOk = true ∧ envHang.callback = none ∧
    launch envHang = none ∧ (doLogin envHang).outcome = none :=
  ⟨rfl, rfl, rfl, rfl⟩

/-- C2 amended: `launch` returns (without blocking) exactly when the
browser launch fails or a callback arrives; when the browser opens
successfully and no callback ever arrives, `launch` — and with it
`doLogin` — blocks forever on the hand-off channel.  (The 5-second
timeout context in the source only bounds the graceful server shutdown
deferred to after `launch` returns.) -/
theorem launch_terminates_iff (env : Env)
    (hle : env.listenErr = none) (hee : env.entropyErr = none) :
    ((launch env).isSome ↔ env.browserOk = false ∨ env.callback.isSome = true) ∧
    (launch env = none → (doLogin env).outcome = none) := by
  constructor
  · unfold launch
    cases hb : env.browserOk <;> cases hc : env.callback <;> simp
  · intro hl
    unfold doLogin
    simp only [hle, hee, hl]

/-- C2 amended witness: the hanging environment. -/
theorem launch_terminates_iff_witness :
    ((launch envHang).isSome ↔ envHang.browserOk = false ∨ envHang.callback.isSome = true) ∧
    (launch envHang = none → (doLogin envHang).outcome = none) :=
  launch_terminates_iff envHang rfl rfl

/-! ## C3 — non-200 token endpoint responses -/

/-- C3: for every token-endpoint response with status other than 200,
`codeToToken` returns an error and no token response; when the response
declares a media type and its body decodes as JSON the message carries
the body's `error` and `error_description` values (absent fields
rendering as Go's nil-interface text), and otherwise it is the generic
exchange-failure message. -/
theorem codeToToken_non200 (env : Env) (v code redirect : String)
    (r : HTTPResponse)
    (hpost : env.tokenPost (tokenFormOf env v code redirect) = .ok r)
    (hstatus : r.status ≠ 200) :
    (codeToToken env v code redirect).1 =
      .error (if r.mediaType ≠ "" then
          match r.errJson with
          | some j => "Failed to turn code into token, error: " ++ errJsonVal j.error
              ++ " error_description: " ++ errJsonVal j.error_description
          | none => "Failed to turn code into token"
        else "Failed to turn code into token") := by
  unfold codeToToken
  simp only [hpost]
  by_cases hm : r.mediaType = ""
  · simp [hm, hstatus]
  · cases hj : r.errJson <;> simp [hm, hj, hstatus]

/-- C3 witness: status 400 with body error `invalid_grant` /
`code expired` surfaces both fields. -/
theorem codeToToken_non200_witness :
    (codeToToken envErr400 "vrf" "code123" redirectUri).1 =
      .error (if resp400.mediaType ≠ "" then
          match resp400.errJson with
          | some j => "Failed to turn code into token, error: " ++ errJsonVal j.error
              ++ " error_description: " ++ errJsonVal j.error_description
          | none => "Failed to turn code into token"
        else "Failed to turn code into token") :=
  codeToToken_non200 envErr400 "vrf" "code123" redirectUri resp400 rfl (by decide)

/-! ## C4 — the redirect handler -/

/-- C4: for every callback handled by the redirect listener, the value of
the `code` query parameter (empty when absent) is exactly what is
delivered on the hand-off channel — and hence what `launch` returns —
and the rendered page's message is "Login successful" when the code is
non-empty and "Login failed" when it is absent or empty. -/
theorem redirect_handler_spec (q : List (String × String)) (env : Env)
    (hb : env.browserOk = true) (hc : env.callback = some q) :
    (handleRedirect q).delivered = queryGet q "code" ∧
    (handleRedirect q).message =
      (if queryGet q "code" ≠ "" then "Login successful" else "Login failed") ∧
    (handleRedirect q).page =
      loginPage (if queryGet q "code" ≠ "" then "Login successful" else "Login failed") ∧
    launch env = some (queryGet q "code") := by
  refine ⟨rfl, ?_, ?_, ?_⟩
  · by_cases h : queryGet q "code" = "" <;> simp [handleRedirect, h]
  · by_cases h : queryGet q "code" = "" <;> simp [handleRedirect, loginPage, h]
  · unfold launch
    rw [hb, hc]
    simp [handleRedirect]

/-- C4 witness: a callback with `code=ABC123`. -/
theorem redirect_handler_spec_witness :
    (handleRedirect [("code", "ABC123")]).delivered = queryGet [("code", "ABC123")] "code" ∧
    (handleRedirect [("code", "ABC123")]).message =
      (if queryGet [("code", "ABC123")] "code" ≠ "" then "Login successful" else "Login failed") ∧
    (handleRedirect [("code", "ABC123")]).page =
      loginPage (if queryGet [("code", "ABC123")] "code" ≠ "" then "Login successful"
        else "Login failed") ∧
    launch envCallback = some (queryGet [("code", "ABC123")] "code") :=
  redirect_handler_spec [("code", "ABC123")] envCallback rfl rfl

/-! ## C5 — PKCE flow continuity -/

/-- The form returned by `codeToToken` is always the one it submitted. -/
theorem codeToToken_snd (env : Env) (v c rd : String) :
    (codeToToken env v c rd).2 = tokenFormOf env v c rd := by
  unfold codeToToken
  cases hpost : env.tokenPost (tokenFormOf env v c rd) with
  | error e => simp [hpost]
  | ok r =>
    by_cases h : r.status ≠ 200 <;> by_cases hm : r.mediaType ≠ "" <;>
      cases hj : r.errJson <;> simp [hpost, h, hm, hj]

/-- C5: in every login attempt that reaches the token exchange, exactly
one PKCE generation and one token exchange are performed, one
authorization request is built, the `code_challenge` it carries is the
S256 challenge of the generated verifier, and the `code_verifier`
submitted in the token-exchange form is that very verifier. -/
theorem doLogin_pkce_continuity (env : Env) (f : List (String × String))
    (hf : (doLogin env).tokenForm = some f) :
    (doLogin env).events.count Event.pkceGen = 1 ∧
    (doLogin env).events.count Event.tokenExchange = 1 ∧
    (doLogin env).authReq =
      some (authRequestParams env (codeChallengeS256 env (createCodeVerifier env))) ∧
    queryGet (authRequestParams env (codeChallengeS256 env (createCodeVerifier env)))
      "code_challenge" = codeChallengeS256 env (createCodeVerifier env) ∧
    queryGet f "code_verifier" = createCodeVerifier env := by
  cases hle : env.listenErr with
  | some e => simp [doLogin, hle] at hf
  | none =>
    cases hee : env.entropyErr with
    | some e => simp [doLogin, hle, hee] at hf
    | none =>
      cases hl : launch env with
      | none => simp [doLogin, hle, hee, hl] at hf
      | some code =>
        by_cases hc : code = ""
        · simp [doLogin, hle, hee, hl, hc] at hf
        · have hrun : doLogin env =
              { outcome := some (codeToToken env (createCodeVerifier env) code redirectUri).1,
                events := [.listenBind, .pkceGen, .browserLaunch, .tokenExchange],
                authReq := some (authRequestParams env
                  (codeChallengeS256 env (createCodeVerifier env))),
                tokenForm := some (codeToToken env (createCodeVerifier env) code redirectUri).2 } := by
            unfold doLogin
            simp [hle, hee, hl, hc]
          rw [hrun] at hf ⊢
          simp only [Option.some.injEq] at hf
          refine ⟨rfl, rfl, rfl, rfl, ?_⟩
          rw [← hf, codeToToken_snd]
          unfold tokenFormOf
          rw [queryGet_formSet_other _ _ _ _ (by decide), queryGet_formSet_self]

/-- C5 witness: the successful-flow environment. -/
theorem doLogin_pkce_continuity_witness :
    (doLogin envFlow).events.count Event.pkceGen = 1 ∧
    (doLogin envFlow).events.count Event.tokenExchange = 1 ∧
    (doLogin envFlow).authReq =
      some (authRequestParams envFlow (codeChallengeS256 envFlow (createCodeVerifier envFlow))) ∧
    queryGet (authRequestParams envFlow (codeChallengeS256 envFlow (createCodeVerifier envFlow)))
      "code_challenge" = codeChallengeS256 envFlow (createCodeVerifier envFlow) ∧
    queryGet (tokenFormOf envFlow (createCodeVerifier envFlow) "OK" redirectUri)
      "code_verifier" = createCodeVerifier envFlow :=
  doLogin_pkce_continuity envFlow
    (tokenFormOf envFlow (createCodeVerifier envFlow) "OK" redirectUri) rfl

/-! ## C6 — the PKCE pair itself -/

/-- C6: the generated verifier has the maximum allowed length (inside
the 43–128 bound) and the challenge carried by the authorization request
is deterministically base64url of the SHA-256 digest of that verifier. -/
theorem pkce_generator_spec (env : Env) (a : List (String × String))
    (hreq : (doLogin env).authReq = some a) :
    (createCodeVerifier env).length = pkceMaxLength ∧
    pkceMinLength ≤ (createCodeVerifier env).length ∧
    (createCodeVerifier env).length ≤ pkceMaxLength ∧
    codeChallengeS256 env (createCodeVerifier env) =
      base64urlEncode (env.sha256 (createCodeVerifier env)) ∧
    queryGet a "code_challenge" =
      base64urlEncode (env.sha256 (createCodeVerifier env)) := by
  have hlen : (createCodeVerifier env).length = pkceMaxLength := by
    simp [createCodeVerifier, String.length, pkceMaxLength]
  have ha : a = authRequestParams env (codeChallengeS256 env (createCodeVerifier env)) := by
    cases hle : env.listenErr with
    | some e => simp [doLogin, hle] at hreq
    | none =>
      cases hee : env.entropyErr with
      | some e => simp [doLogin, hle, hee] at hreq
      | none =>
        cases hl : launch env with
        | none =>
          simp [doLogin, hle, hee, hl] at hreq
          exact hreq.symm
        | some code =>
          by_cases hc : code = "" <;> simp [doLogin, hle, hee, hl, hc] at hreq <;>
            exact hreq.symm
  refine ⟨hlen, by rw [hlen]; decide, by rw [hlen], rfl, ?_⟩
  rw [ha]
  rfl

/-- C6 witness: the neutral environment (the attempt hangs awaiting a
callback, but the request has been built). -/
theorem pkce_generator_spec_witness :
    (createCodeVerifier baseEnv).length = pkceMaxLength ∧
    pkceMinLength ≤ (createCodeVerifier baseEnv).length ∧
    (createCodeVerifier baseEnv).length ≤ pkceMaxLength ∧
    codeChallengeS256 baseEnv (createCodeVerifier baseEnv) =
      base64urlEncode (baseEnv.sha256 (createCodeVerifier baseEnv)) ∧
    queryGet (authRequestParams baseEnv (codeChallengeS256 baseEnv (createCodeVerifier baseEnv)))
      "code_challenge" =
      base64urlEncode (baseEnv.sha256 (createCodeVerifier baseEnv)) :=
  pkce_generator_spec baseEnv
    (authRequestParams baseEnv (codeChallengeS256 baseEnv (createCodeVerifier baseEnv))) rfl

/-! ## C7 — no early validation of an empty role -/

/-- C7 counterexample: with an empty role argument, an empty configured
default role, and collaborators that let the flow succeed, `Authenticate`
raises no configuration error at all: it binds the listener, launches
the browser, exchanges the code, calls the credential exchange with the
empty role, and emits a credential. -/
theorem authenticate_empty_role_counterexample :
    envFlow.config DEFAULT_IAM_ROLE_ARN = "" ∧
    Authenticate envFlow "" 0 false false =
      { outcome := AuthOutcome.emitted (.envExport "AKIA" "SECRET" "TOKEN"),
        events := [.listenBind, .pkceGen, .browserLaunch, .tokenExchange,
          .stsCall "" 3600] } :=
  ⟨rfl, rfl⟩

/-- C7 amended: `Authenticate` performs no role-presence validation.
With an empty role argument and no configured default, the role resolves
to the empty string and the full flow runs anyway (every `doLogin` event
occurs in the run's trace); any failure surfaces only later, from the
collaborators themselves. -/
theorem authenticate_empty_role_proceeds (env : Env) (maxDur : Int) (asJson : Bool)
    (hdefault : env.config DEFAULT_IAM_ROLE_ARN = "") :
    resolveRole env "" = "" ∧
    Authenticate env "" maxDur false asJson =
      loginAndExchange env "" maxDur false asJson [] ∧
    (doLogin env).events <+: (Authenticate env "" maxDur false asJson).events := by
  have hrole : resolveRole env "" = "" := by simp [resolveRole, hdefault]
  have hauth : Authenticate env "" maxDur false asJson =
      loginAndExchange env "" maxDur false asJson [] := by
    unfold Authenticate
    rw [hrole]
    rfl
  refine ⟨hrole, hauth, ?_⟩
  rw [hauth]
  unfold loginAndExchange
  cases hout : (doLogin env).outcome with
  | none =>
    simp only [hout, List.nil_append]
    exact List.prefix_rfl
  | some r =>
    cases r with
    | error e =>
      simp only [hout, List.nil_append]
      exact List.prefix_rfl
    | ok tok =>
      cases hsts : env.stsExchange "" tok.IDToken
          (resolveMaxDuration maxDur (env.config MAX_SESSION_DURATION_SECONDS)) with
      | error e =>
        simp only [hout, hsts, List.nil_append]
        exact List.prefix_append _ _
      | ok creds =>
        simp only [hout, hsts, List.nil_append, Bool.false_eq_true, if_false,
          List.append_nil]
        exact List.prefix_append _ _

/-- C7 amended witness: the successful-flow environment. -/
theorem authenticate_empty_role_proceeds_witness :
    resolveRole envFlow "" = "" ∧
    Authenticate envFlow "" 0 false false =
      loginAndExchange envFlow "" 0 false false [] ∧
    (doLogin envFlow).events <+: (Authenticate envFlow "" 0 false false).events :=
  authenticate_empty_role_proceeds envFlow 0 false rfl

/-! ## C8 — listener before browser; browser failure does not hang -/

/-- C8: in every login attempt that reaches the browser launch, the
listener bind strictly precedes the browser launch in the event trace;
and if the browser launch fails, `launch` returns the empty code at once
(no blocking on the hand-off channel), so `doLogin` terminates with the
login-failure error. -/
theorem doLogin_listen_before_browser (env : Env)
    (hb : Event.browserLaunch ∈ (doLogin env).events) :
    (doLogin env).events.indexOf Event.listenBind <
      (doLogin env).events.indexOf Event.browserLaunch ∧
    Event.listenBind ∈ (doLogin env).events ∧
    (env.browserOk = false →
      launch env = some "" ∧
      (doLogin env).outcome =
        some (.error "Login failed, can't retrieve authorization code")) := by
  have hlaunch : env.browserOk = false → launch env = some "" := by
    intro hbf
    simp [launch, hbf]
  cases hle : env.listenErr with
  | some e => simp [doLogin, hle] at hb
  | none =>
    cases hee : env.entropyErr with
    | some e => simp [doLogin, hle, hee] at hb
    | none =>
      cases hl : launch env with
      | none =>
        have hrun : doLogin env =
            { outcome := none, events := [.listenBind, .pkceGen, .browserLaunch],
              authReq := some (authRequestParams env
                (codeChallengeS256 env (createCodeVerifier env))),
              tokenForm := none } := by
          unfold doLogin
          simp [hle, hee, hl]
        rw [hrun]
        refine ⟨of_decide_eq_true rfl, of_decide_eq_true rfl, ?_⟩
        intro hbf
        rw [hlaunch hbf] at hl
        exact absurd hl (by simp)
      | some code =>
        by_cases hc : code = ""
        · have hrun : doLogin env =
              { outcome := some (.error "Login failed, can't retrieve authorization code"),
                events := [.listenBind, .pkceGen, .browserLaunch],
                authReq := some (authRequestParams env
                  (codeChallengeS256 env (createCodeVerifier env))),
                tokenForm := none } := by
            unfold doLogin
            simp [hle, hee, hl, hc]
          rw [hrun]
          refine ⟨of_decide_eq_true rfl, of_decide_eq_true rfl, ?_⟩
          intro hbf
          exact ⟨by rw [← hl]; exact hlaunch hbf, rfl⟩
        · have hrun : doLogin env =
              { outcome := some (codeToToken env (createCodeVerifier env) code redirectUri).1,
                events := [.listenBind, .pkceGen, .browserLaunch, .tokenExchange],
                authReq := some (authRequestParams env
                  (codeChallengeS256 env (createCodeVerifier env))),
                tokenForm := some (codeToToken env (createCodeVerifier env) code redirectUri).2 } := by
            unfold doLogin
            simp [hle, hee, hl, hc]
          rw [hrun]
          refine ⟨of_decide_eq_true rfl, of_decide_eq_true rfl, ?_⟩
          intro hbf
          rw [hlaunch hbf] at hl
          exact absurd (Option.some.inj hl) fun h => hc h.symm

/-- C8 witness: the browser fails to open. -/
theorem doLogin_listen_before_browser_witness :
    (doLogin envNoBrowser).events.indexOf Event.listenBind <
      (doLogin envNoBrowser).events.indexOf Event.browserLaunch ∧
    Event.listenBind ∈ (doLogin envNoBrowser).events ∧
    (envNoBrowser.browserOk = false →
      launch envNoBrowser = some "" ∧
      (doLogin envNoBrowser).outcome =
        some (.error "Login failed, can't retrieve authorization code")) :=
  doLogin_listen_before_browser envNoBrowser (by decide)

/-! ## C9 — session-duration resolution -/

/-- C9: whenever the caller-supplied duration is non-positive and the
login succeeds, the duration handed to the credential-exchange call is
the base-10 signed 64-bit parse of the configured
`max_session_duration_seconds` string, 3600 when that parse fails
(including empty/absent), with no clamping to the 900–43200 range (100,
50000 pass through; an out-of-int64-range literal fails the parse). -/
theorem authenticate_session_duration (env : Env) (roleArn : String)
    (maxDur : Int) (asJson : Bool) (tok : TokenResponse)
    (hlogin : (doLogin env).outcome = some (.ok tok))
    (hmax : maxDur ≤ 0) :
    Event.stsCall (resolveRole env roleArn)
        (resolveMaxDuration maxDur (env.config MAX_SESSION_DURATION_SECONDS)) ∈
      (Authenticate env roleArn maxDur false asJson).events ∧
    resolveMaxDuration maxDur (env.config MAX_SESSION_DURATION_SECONDS) =
      (parseInt64 (env.config MAX_SESSION_DURATION_SECONDS)).getD 3600 ∧
    parseInt64 "" = none ∧
    parseInt64 "3600" = some 3600 ∧
    parseInt64 "100" = some 100 ∧
    parseInt64 "50000" = some 50000 ∧
    parseInt64 "9223372036854775808" = none := by
  refine ⟨?_, ?_, by decide, by decide, by decide, by decide, by decide⟩
  · have hauth : Authenticate env roleArn maxDur false asJson =
        loginAndExchange env (resolveRole env roleArn) maxDur false asJson [] := rfl
    rw [hauth]
    unfold loginAndExchange
    cases hsts : env.stsExchange (resolveRole env roleArn) tok.IDToken
        (resolveMaxDuration maxDur (env.config MAX_SESSION_DURATION_SECONDS)) with
    | error e => simp [hlogin, hsts]
    | ok creds => simp [hlogin, hsts]
  · unfold resolveMaxDuration
    rw [if_pos hmax]
    cases parseInt64 (env.config MAX_SESSION_DURATION_SECONDS) <;> simp

/-- C9 witness: successful flow, caller duration 0, empty configured
duration string, so the credential exchange is called with 3600. -/
theorem authenticate_session_duration_witness :
    Event.stsCall (resolveRole envFlow "myrole")
        (resolveMaxDuration 0 (envFlow.config MAX_SESSION_DURATION_SECONDS)) ∈
      (Authenticate envFlow "myrole" 0 false false).events ∧
    resolveMaxDuration 0 (envFlow.config MAX_SESSION_DURATION_SECONDS) =
      (parseInt64 (envFlow.config MAX_SESSION_DURATION_SECONDS)).getD 3600 ∧
    parseInt64 "" = none ∧
    parseInt64 "3600" = some 3600 ∧
    parseInt64 "100" = some 100 ∧
    parseInt64 "50000" = some 50000 ∧
    parseInt64 "9223372036854775808" = none :=
  authenticate_session_duration envFlow "myrole" 0 false sampleTok rfl (by decide)

/-! ## C10 — malformed 200 body treated as success -/

/-- C10: when the token endpoint answers status 200 with a body that does
not decode as a token response, `codeToToken` still returns the zero
token response (empty `IDToken`) with no error — the decode error is
discarded — and `doLogin` therefore reports a successful login. -/
theorem codeToToken_malformed_success (env : Env) (r : HTTPResponse)
    (q : List (String × String)) (v c rd : String)
    (hpost : ∀ f, env.tokenPost f = .ok r)
    (hstatus : r.status = 200) (hbody : r.tokenJson = none)
    (hle : env.listenErr = none) (hee : env.entropyErr = none)
    (hbr : env.browserOk = true) (hcb : env.callback = some q)
    (hcode : queryGet q "code" ≠ "") :
    (codeToToken env v c rd).1 = .ok zeroTokenResponse ∧
    zeroTokenResponse.IDToken = "" ∧
    (doLogin env).outcome = some (.ok zeroTokenResponse) := by
  have hct : ∀ v' c' rd', (codeToToken env v' c' rd').1 = .ok zeroTokenResponse := by
    intro v' c' rd'
    unfold codeToToken
    simp only [hpost]
    simp [hstatus, hbody]
  refine ⟨hct v c rd, rfl, ?_⟩
  have hl : launch env = some (queryGet q "code") := by
    unfold launch
    rw [hbr, hcb]
    simp [handleRedirect]
  unfold doLogin
  simp only [hle, hee, hl]
  rw [if_pos hcode]
  simp [hct]

/-- C10 witness: a 200 response with an undecodable body yields a
"successful" login carrying the zero token response. -/
theorem codeToToken_malformed_success_witness :
    (codeToToken envMalformed "vrf" "OK" redirectUri).1 = .ok zeroTokenResponse ∧
    zeroTokenResponse.IDToken = "" ∧
    (doLogin envMalformed).outcome = some (.ok zeroTokenResponse) :=
  codeToToken_malformed_success envMalformed respMalformed [("code", "OK")]
    "vrf" "OK" redirectUri (fun _ => rfl) rfl rfl rfl rfl rfl rfl (by decide)

end AwsCliOidc
